import Mathlib

/-!
# The `_databasereader` binding module of specfempp-digworm

A shallow embedding of `src/specfempp_digworm/_cpp_databasereader/module.cpp`:
the free function `add`, the `subtract` lambda and the `gll` lambda that the
module registers, followed by the properties of them that the specification
states.

* A C `int` is an integer of the range `[-2^31, 2^31 - 1]`; the result of
  `+` and `-` is reduced mod `2^32` into that range (two's-complement
  wraparound).
* `type_real` and the class `specfem::quadrature::gll::gll` come from the
  headers `quadrature/interface.hpp` of the external quadrature library;
  they are parameters of the embedding.
* A C++ exception is the `error` case of `Except`.
-/

namespace databasereader

/-! ## C `int` -/

/-- The least value of a C `int`, `-2^31`. -/
def INT_MIN : Int := -2147483648

/-- The greatest value of a C `int`, `2^31 - 1`. -/
def INT_MAX : Int := 2147483647

/-- A C `int`: a mathematical integer of the range `[INT_MIN, INT_MAX]`. -/
abbrev CInt : Type := { v : Int // INT_MIN ≤ v ∧ v ≤ INT_MAX }

/-- Reduction of a mathematical integer mod `2^32` into the range of `int`. -/
def wrap (x : Int) : CInt :=
  ⟨(x + 2147483648) % 4294967296 - 2147483648, by
    unfold INT_MIN INT_MAX
    omega⟩

/-! ## The arithmetic functions -/

/-- Source: `int add(int i, int j) { return i + j; }`. -/
def add (i j : CInt) : CInt := wrap (i.val + j.val)

/-- Source: `[](int i, int j) { return i - j; }`, registered as `subtract`. -/
def subtract (i j : CInt) : CInt := wrap (i.val - j.val)

/-- An integer literal of the source, of type `int`. -/
instance (k : Nat) : OfNat CInt k := ⟨wrap (k : Int)⟩

/-! ## The quadrature entry point -/

/-- The names of the external quadrature library that `module.cpp` refers to.
`R` is `type_real`, `Q` the class `specfem::quadrature::gll::gll`, and `ε` the
exceptions its operations can throw. Their definitions are in the library's
headers, so they are taken as they come. -/
structure QuadratureLibrary (ε Q R : Type) where
  /-- The constant `sizeof(type_real)`. -/
  sizeof_type_real : Nat
  /-- The constructor `specfem::quadrature::gll::gll(alpha, beta)`. -/
  gll_gll : R → R → Except ε Q
  /-- The accessor `quad.get_xi()(i)`. -/
  get_xi : Q → Int → Except ε R

/-- Source: the lambda `[](type_real alpha, type_real beta, int n)` registered
as `gll`. Its live statements are the constant `real_size`, the construction
of `quad` from the literals `(0, 0)`, and `return 1;`. The loop over
`quad.get_xi()` and the two other `return`s are comments in the source. -/
def gll {ε Q R : Type} [Zero R] (lib : QuadratureLibrary ε Q R)
    (_alpha _beta : R) (_n : CInt) : Except ε CInt := do
  let _real_size : Nat := lib.sizeof_type_real
  let _quad ← lib.gll_gll 0 0
  return 1

/-- A value handed to the Python caller: an `int`, a one-dimensional array of
reals, or a pair of such values. -/
inductive PyObject (R : Type) where
  | int (v : Int)
  | array (xs : List R)
  | tuple (a b : PyObject R)
  deriving DecidableEq

/-- The conversion of a returned C++ `int` to a Python `int`. -/
def cast_int {R : Type} (v : CInt) : PyObject R := PyObject.int v.val

/-- Source: `m.def("gll", ...)`: the entry point as the caller sees it. The
lambda runs on the converted arguments, its `int` result is converted back, and
an exception of the lambda propagates. -/
def m_gll {ε Q R : Type} [Zero R] (lib : QuadratureLibrary ε Q R)
    (alpha beta : R) (n : CInt) : Except ε (PyObject R) :=
  (gll lib alpha beta n).map cast_int

/-! ## The vocabulary of the specification -/

/-- The error taxonomy of the specification (section 7). -/
inductive QuadError where
  | InvalidArgument
  | NumericalFailure
  deriving DecidableEq

/-- The valid requests of the specification (section 3): `alpha > -1`,
`beta > -1` and `n ≥ 2`. -/
def ValidRequest {R : Type} [LinearOrderedRing R] (alpha beta : R) (n : CInt) : Prop :=
  -1 < alpha ∧ -1 < beta ∧ 2 ≤ n.val

/-- The invalid requests of the specification (section 4.1): `n < 2` or
`alpha ≤ -1` or `beta ≤ -1`. -/
def InvalidRequest {R : Type} [LinearOrderedRing R] (alpha beta : R) (n : CInt) : Prop :=
  n.val < 2 ∨ alpha ≤ -1 ∨ beta ≤ -1

/-- The reading of a returned value as the `QuadratureResult` of the
specification, a pair `(nodes, weights)` of two sequences of reals. -/
def asQuadratureResult {R : Type} : PyObject R → Option (List R × List R)
  | PyObject.tuple (PyObject.array nodes) (PyObject.array weights) => some (nodes, weights)
  | _ => none

/-- The node `nodes[i]` of a returned value, when it has one. -/
def node? {R : Type} (v : PyObject R) (i : Nat) : Option R :=
  (asQuadratureResult v).bind (fun p => p.1[i]?)

/-! ## Two instances of the library -/

/-- A library over the rationals whose constructor accepts exactly the
exponents `alpha, beta > -1` and whose nodes are the two endpoints. -/
def checkedLib : QuadratureLibrary QuadError (Rat × Rat) Rat where
  sizeof_type_real := 8
  gll_gll := fun a b =>
    if a ≤ -1 ∨ b ≤ -1 then Except.error QuadError.InvalidArgument else Except.ok (a, b)
  get_xi := fun _ i =>
    if i = 0 then Except.ok (-1) else if i = 1 then Except.ok 1
    else Except.error QuadError.InvalidArgument

/-- A library over the rationals whose constructor throws on every input. -/
def throwingLib : QuadratureLibrary QuadError Unit Rat where
  sizeof_type_real := 8
  gll_gll := fun _ _ => Except.error QuadError.NumericalFailure
  get_xi := fun _ _ => Except.error QuadError.NumericalFailure

/-! ## Helper lemmas on `wrap` -/

theorem wrap_val (x : Int) :
    (wrap x).val = (x + 2147483648) % 4294967296 - 2147483648 := rfl

theorem wrap_val_of_range (x : Int) (hlo : INT_MIN ≤ x) (hhi : x ≤ INT_MAX) :
    (wrap x).val = x := by
  unfold INT_MIN at hlo
  unfold INT_MAX at hhi
  rw [wrap_val]
  omega

theorem wrap_self (i : CInt) : wrap i.val = i := by
  apply Subtype.ext
  exact wrap_val_of_range i.val i.property.1 i.property.2

theorem pow_bounds : -(2 : Int) ^ 31 = INT_MIN ∧ (2 : Int) ^ 31 - 1 = INT_MAX := by
  unfold INT_MIN INT_MAX
  constructor <;> norm_num

theorem gll_eq {ε Q R : Type} [Zero R] (lib : QuadratureLibrary ε Q R)
    (alpha beta : R) (n : CInt) :
    gll lib alpha beta n = (lib.gll_gll 0 0).map (fun _ => (1 : CInt)) := by
  unfold gll
  cases lib.gll_gll 0 0 <;> rfl

theorem m_gll_eq {ε Q R : Type} [Zero R] (lib : QuadratureLibrary ε Q R)
    (alpha beta : R) (n : CInt) :
    m_gll lib alpha beta n = (lib.gll_gll 0 0).map (fun _ => PyObject.int 1) := by
  unfold m_gll
  rw [gll_eq]
  cases lib.gll_gll 0 0 <;> rfl

theorem checkedLib_ctor : checkedLib.gll_gll 0 0 = Except.ok (0, 0) := by
  simp [checkedLib]

theorem zero_val : (0 : CInt).val = 0 := rfl

theorem one_val : (1 : CInt).val = 1 := rfl

/-! ## `add` and `subtract` -/

/-- C2: `add` adds two numbers. For every pair of C ints `i` and `j` whose
mathematical sum lies in `[-2^31, 2^31 - 1]`, `add i j` is the integer
`i + j`. -/
theorem add_eq_sum (i j : CInt)
    (h : -2 ^ 31 ≤ i.val + j.val ∧ i.val + j.val ≤ 2 ^ 31 - 1) :
    (add i j).val = i.val + j.val := by
  obtain ⟨hlo, hhi⟩ := h
  norm_num at hlo hhi
  unfold add
  rw [wrap_val]
  omega

/-- An instance of C2: `add 2147483000 647 = 2147483647`, the greatest `int`. -/
theorem add_eq_sum_witness :
    (-2 ^ 31 ≤ (2147483000 : CInt).val + (647 : CInt).val ∧
      (2147483000 : CInt).val + (647 : CInt).val ≤ 2 ^ 31 - 1) ∧
    (add 2147483000 647).val = 2147483647 :=
  ⟨by decide, add_eq_sum 2147483000 647 (by decide)⟩

/-- C3: `subtract` subtracts two numbers. For every pair of C ints `i` and `j`
whose mathematical difference lies in `[-2^31, 2^31 - 1]`, `subtract i j` is
the integer `i - j`, the first argument minus the second. -/
theorem subtract_eq_difference (i j : CInt)
    (h : -2 ^ 31 ≤ i.val - j.val ∧ i.val - j.val ≤ 2 ^ 31 - 1) :
    (subtract i j).val = i.val - j.val := by
  obtain ⟨hlo, hhi⟩ := h
  norm_num at hlo hhi
  unfold subtract
  rw [wrap_val]
  omega

/-- An instance of C3: `subtract 3 10 = -7`, not `7`. -/
theorem subtract_eq_difference_witness :
    (-2 ^ 31 ≤ (3 : CInt).val - (10 : CInt).val ∧
      (3 : CInt).val - (10 : CInt).val ≤ 2 ^ 31 - 1) ∧
    (subtract 3 10).val = -7 :=
  ⟨by decide, subtract_eq_difference 3 10 (by decide)⟩

/-- C8: `subtract` undoes `add`, also across overflow. In the 32-bit wraparound
model, for every pair of ints `i` and `j`, `subtract (add i j) j = i` and
`add (subtract i j) j = i`. -/
theorem subtract_add_cancel (i j : CInt) :
    subtract (add i j) j = i ∧ add (subtract i j) j = i := by
  have hi := i.property
  unfold INT_MIN INT_MAX at hi
  constructor <;> apply Subtype.ext
  · simp only [add, subtract, wrap_val]
    omega
  · simp only [add, subtract, wrap_val]
    omega

/-- C9: `add` is commutative with `0` as identity, and `subtract` is its
anti-commutative counterpart. In the 32-bit wraparound model, for every pair
of ints `i` and `j`: `add i j = add j i`, `add i 0 = i`, `subtract i 0 = i`,
`subtract i i = 0` and `add (subtract i j) (subtract j i) = 0`. -/
theorem add_subtract_algebra (i j : CInt) :
    add i j = add j i ∧ add i 0 = i ∧ subtract i 0 = i ∧ subtract i i = 0 ∧
      add (subtract i j) (subtract j i) = 0 := by
  have hi := i.property
  unfold INT_MIN INT_MAX at hi
  refine ⟨?_, ?_, ?_, ?_, ?_⟩ <;> apply Subtype.ext
  · simp only [add, wrap_val]
    omega
  · simp only [add, wrap_val, zero_val]
    omega
  · simp only [subtract, wrap_val, zero_val]
    omega
  · simp only [subtract, wrap_val, zero_val]
    omega
  · simp only [add, subtract, wrap_val, zero_val]
    omega

/-! ## The `gll` entry point -/

/-- C1 fails as stated: the construction of `quad` from `(0, 0)` runs before
`return 1;`, so with a library whose constructor throws, the call at
`alpha = -3`, `beta = 1/2`, `n = -5` returns no `1`: neither the lambda nor the
entry point the caller sees yields a value. -/
theorem gll_returns_constant_counterexample :
    gll throwingLib (-3) (1 / 2) (wrap (-5)) ≠ Except.ok 1 ∧
      m_gll throwingLib (-3) (1 / 2) (wrap (-5)) ≠ Except.ok (PyObject.int 1) ∧
      m_gll throwingLib (-3) (1 / 2) (wrap (-5)) =
        Except.error QuadError.NumericalFailure := by
  have h : gll throwingLib (-3) (1 / 2) (wrap (-5)) =
      Except.error QuadError.NumericalFailure := by
    rw [gll_eq]; rfl
  have hm : m_gll throwingLib (-3) (1 / 2) (wrap (-5)) =
      Except.error QuadError.NumericalFailure := by
    rw [m_gll_eq]; rfl
  refine ⟨?_, ?_, hm⟩
  · rw [h]; simp
  · rw [hm]; simp

/-- C1, amended: the outcome of the exposed function `gll` does not depend on
its arguments. For every `alpha`, every `beta` and every int `n`, negative
ones included, the outcome is the one of every other triple of arguments, and
whenever the construction of `quad` from `(0, 0)` returns, `gll` returns the
int `1`, which the caller receives as the Python int `1`. -/
theorem gll_returns_constant {ε Q R : Type} [Zero R] (lib : QuadratureLibrary ε Q R)
    (alpha beta : R) (n : CInt) :
    (∀ q : Q, lib.gll_gll 0 0 = Except.ok q →
        gll lib alpha beta n = Except.ok 1 ∧
          m_gll lib alpha beta n = Except.ok (PyObject.int 1)) ∧
      (∀ (alpha' beta' : R) (n' : CInt),
        gll lib alpha' beta' n' = gll lib alpha beta n ∧
          m_gll lib alpha' beta' n' = m_gll lib alpha beta n) := by
  constructor
  · intro q hq
    constructor
    · rw [gll_eq, hq]; rfl
    · rw [m_gll_eq, hq]; rfl
  · intro alpha' beta' n'
    simp only [gll_eq, m_gll_eq, and_self]

/-- An instance of the amended C1 at a negative `n` and exponents below `-1`. -/
theorem gll_returns_constant_witness :
    checkedLib.gll_gll 0 0 = Except.ok (0, 0) ∧
      gll checkedLib (-3) (-7 / 2) (wrap (-5)) = Except.ok 1 ∧
      m_gll checkedLib (-3) (-7 / 2) (wrap (-5)) = Except.ok (PyObject.int 1) :=
  ⟨checkedLib_ctor,
    (gll_returns_constant checkedLib (-3) (-7 / 2) (wrap (-5))).1 (0, 0) checkedLib_ctor⟩

/-- C4 fails as stated: with a library whose constructor accepts `(0, 0)`, the
requests `(0, 0, 1)` and `(-1, 0, 5)` are invalid, and both return `1` rather
than fail with `InvalidArgument`. -/
theorem gll_rejects_invalid_counterexample :
    InvalidRequest (0 : Rat) 0 1 ∧
      m_gll checkedLib 0 0 1 = Except.ok (PyObject.int 1) ∧
      m_gll checkedLib 0 0 1 ≠ Except.error QuadError.InvalidArgument ∧
      InvalidRequest (-1 : Rat) 0 5 ∧
      m_gll checkedLib (-1) 0 5 = Except.ok (PyObject.int 1) ∧
      m_gll checkedLib (-1) 0 5 ≠ Except.error QuadError.InvalidArgument := by
  have h1 : m_gll checkedLib 0 0 1 = Except.ok (PyObject.int 1) := by
    rw [m_gll_eq, checkedLib_ctor]; rfl
  have h2 : m_gll checkedLib (-1) 0 5 = Except.ok (PyObject.int 1) := by
    rw [m_gll_eq, checkedLib_ctor]; rfl
  refine ⟨?_, h1, ?_, ?_, h2, ?_⟩
  · left; decide
  · rw [h1]; simp
  · right; left; exact le_refl _
  · rw [h2]; simp

/-- C4, amended: `gll` validates nothing. A request with `n < 2` or
`alpha ≤ -1` or `beta ≤ -1` has the outcome of every valid request, and it
returns `1` once the construction of `quad` from `(0, 0)` has returned. -/
theorem gll_accepts_invalid_request {ε Q R : Type} [LinearOrderedRing R]
    (lib : QuadratureLibrary ε Q R) (alpha beta : R) (n : CInt)
    (_hinv : InvalidRequest alpha beta n) :
    (∀ (alpha' beta' : R) (n' : CInt), ValidRequest alpha' beta' n' →
        m_gll lib alpha beta n = m_gll lib alpha' beta' n') ∧
      (∀ q : Q, lib.gll_gll 0 0 = Except.ok q →
        m_gll lib alpha beta n = Except.ok (PyObject.int 1)) := by
  constructor
  · intro alpha' beta' n' _
    simp only [m_gll_eq]
  · intro q hq
    rw [m_gll_eq, hq]; rfl

/-- An instance of the amended C4: `n = 1` returns `1`. -/
theorem gll_accepts_invalid_request_witness :
    InvalidRequest (0 : Rat) 0 1 ∧ checkedLib.gll_gll 0 0 = Except.ok (0, 0) ∧
      m_gll checkedLib 0 0 1 = Except.ok (PyObject.int 1) :=
  ⟨Or.inl (by decide), checkedLib_ctor,
    (gll_accepts_invalid_request checkedLib 0 0 1 (Or.inl (by decide))).2 (0, 0)
      checkedLib_ctor⟩

theorem m_gll_ok_inv {ε Q R : Type} [Zero R] (lib : QuadratureLibrary ε Q R)
    (alpha beta : R) (n : CInt) (v : PyObject R)
    (hv : m_gll lib alpha beta n = Except.ok v) : v = PyObject.int 1 := by
  rw [m_gll_eq] at hv
  cases hc : lib.gll_gll 0 0 with
  | error e => rw [hc] at hv; cases hv
  | ok q =>
    rw [hc] at hv
    injection hv with hv
    exact hv.symm

/-- C5 fails as stated: the request `(0, 0, 5)` is valid, and what `gll`
returns for it is not a pair `(nodes, weights)` of two sequences of length
`5`. -/
theorem gll_returns_pair_counterexample :
    ValidRequest (0 : Rat) 0 5 ∧
      ¬ ∃ (v : PyObject Rat) (nodes weights : List Rat),
        m_gll checkedLib 0 0 5 = Except.ok v ∧
          asQuadratureResult v = some (nodes, weights) ∧
          nodes.length = 5 ∧ weights.length = 5 := by
  constructor
  · refine ⟨by norm_num, by norm_num, by decide⟩
  · rintro ⟨v, nodes, weights, hv, hr, -, -⟩
    rw [m_gll_ok_inv checkedLib 0 0 5 v hv] at hr
    cases hr

/-- C5, amended: for every valid request `gll` returns the single integer `1`
once the construction of `quad` from `(0, 0)` has returned, and no value that
`gll` returns is a pair `(nodes, weights)`. -/
theorem gll_returns_scalar {ε Q R : Type} [LinearOrderedRing R]
    (lib : QuadratureLibrary ε Q R) (alpha beta : R) (n : CInt)
    (_hvalid : ValidRequest alpha beta n) :
    (∀ q : Q, lib.gll_gll 0 0 = Except.ok q →
        m_gll lib alpha beta n = Except.ok (PyObject.int 1)) ∧
      (∀ v : PyObject R, m_gll lib alpha beta n = Except.ok v →
        asQuadratureResult v = none) := by
  constructor
  · intro q hq
    rw [m_gll_eq, hq]; rfl
  · intro v hv
    rw [m_gll_ok_inv lib alpha beta n v hv]
    rfl

/-- An instance of the amended C5 at the request `(0, 0, 5)`. -/
theorem gll_returns_scalar_witness :
    ValidRequest (0 : Rat) 0 5 ∧ checkedLib.gll_gll 0 0 = Except.ok (0, 0) ∧
      m_gll checkedLib 0 0 5 = Except.ok (PyObject.int 1) :=
  ⟨⟨by norm_num, by norm_num, by decide⟩, checkedLib_ctor,
    (gll_returns_scalar checkedLib 0 0 5 ⟨by norm_num, by norm_num, by decide⟩).1 (0, 0)
      checkedLib_ctor⟩

/-- C6 fails as stated: the request `(0, 0, 2)` is valid, and what `gll`
returns for it has no `nodes[0] = -1` and `nodes[1] = 1`. -/
theorem gll_endpoints_counterexample :
    ValidRequest (0 : Rat) 0 2 ∧
      ¬ ∃ v : PyObject Rat, m_gll checkedLib 0 0 2 = Except.ok v ∧
        node? v 0 = some (-1) ∧ node? v (2 - 1) = some 1 := by
  constructor
  · refine ⟨by norm_num, by norm_num, by decide⟩
  · rintro ⟨v, hv, h0, -⟩
    rw [m_gll_ok_inv checkedLib 0 0 2 v hv] at h0
    cases h0

/-- C6, amended: for every valid `(alpha, beta, n)` the value `gll` returns is
the integer `1`, which has no nodes: neither `nodes[0]` nor `nodes[n-1]`
exists in it. -/
theorem gll_result_has_no_nodes {ε Q R : Type} [LinearOrderedRing R]
    (lib : QuadratureLibrary ε Q R) (alpha beta : R) (n : CInt)
    (_hvalid : ValidRequest alpha beta n) :
    (∀ q : Q, lib.gll_gll 0 0 = Except.ok q →
        ∃ v : PyObject R, m_gll lib alpha beta n = Except.ok v) ∧
      (∀ v : PyObject R, m_gll lib alpha beta n = Except.ok v →
        v = PyObject.int 1 ∧ node? v 0 = none ∧ node? v (n.val.toNat - 1) = none) := by
  constructor
  · intro q hq
    exact ⟨PyObject.int 1, by rw [m_gll_eq, hq]; rfl⟩
  · intro v hv
    rw [m_gll_ok_inv lib alpha beta n v hv]
    exact ⟨rfl, rfl, rfl⟩

/-- An instance of the amended C6 at the request `(0, 0, 2)`. -/
theorem gll_result_has_no_nodes_witness :
    ValidRequest (0 : Rat) 0 2 ∧
      m_gll checkedLib 0 0 2 = Except.ok (PyObject.int 1) ∧
      node? (PyObject.int 1 : PyObject Rat) 0 = none ∧
      node? (PyObject.int 1 : PyObject Rat) ((2 : CInt).val.toNat - 1) = none := by
  have hvalid : ValidRequest (0 : Rat) 0 2 := ⟨by norm_num, by norm_num, by decide⟩
  have hv : m_gll checkedLib 0 0 2 = Except.ok (PyObject.int 1) := by
    rw [m_gll_eq, checkedLib_ctor]; rfl
  exact ⟨hvalid, hv, ((gll_result_has_no_nodes checkedLib 0 0 2 hvalid).2 _ hv).2⟩

/-- C7 fails as stated: the construction of `quad` is a live statement, so with
a library whose constructor throws, `gll` throws too and returns no constant. -/
theorem gll_library_free_counterexample :
    gll throwingLib 0 0 5 = Except.error QuadError.NumericalFailure ∧
      gll throwingLib 0 0 5 ≠ Except.ok 1 := by
  have h : gll throwingLib 0 0 5 = Except.error QuadError.NumericalFailure := by
    rw [gll_eq]; rfl
  refine ⟨h, ?_⟩
  rw [h]
  simp

/-- C7, amended: of the library, `gll` runs the constructor at `(0, 0)` and
nothing else. For every input it returns its constant when that call returns
and throws the call's exception when that call throws; the accessors, the
constant `sizeof(type_real)` and the constructor at other arguments do not
affect the outcome. -/
theorem gll_runs_constructor_only {ε Q R : Type} [Zero R]
    (lib : QuadratureLibrary ε Q R) (alpha beta : R) (n : CInt) :
    (∀ q : Q, lib.gll_gll 0 0 = Except.ok q → gll lib alpha beta n = Except.ok 1) ∧
      (∀ e : ε, lib.gll_gll 0 0 = Except.error e →
        gll lib alpha beta n = Except.error e) ∧
      (∀ other : QuadratureLibrary ε Q R, other.gll_gll 0 0 = lib.gll_gll 0 0 →
        gll other alpha beta n = gll lib alpha beta n) := by
  refine ⟨?_, ?_, ?_⟩
  · intro q hq
    rw [gll_eq, hq]; rfl
  · intro e he
    rw [gll_eq, he]; rfl
  · intro other hsame
    rw [gll_eq, gll_eq, hsame]

/-- An instance of the amended C7: a library whose constructor accepts
`(0, 0)` and whose accessor throws at index `7` still yields `1`. -/
theorem gll_runs_constructor_only_witness :
    checkedLib.gll_gll 0 0 = Except.ok (0, 0) ∧
      checkedLib.get_xi (0, 0) 7 = Except.error QuadError.InvalidArgument ∧
      gll checkedLib 0 0 5 = Except.ok 1 :=
  ⟨checkedLib_ctor, rfl, (gll_runs_constructor_only checkedLib 0 0 5).1 (0, 0) checkedLib_ctor⟩

end databasereader
